import Mathlib

/-!
Shallow embedding of the `cpp_dynamic_calc` repository's Python glue code:
the QA/stress test suite (`src/axiom_qa_test_suite.py`) and the calculator
GUI's engine interface and fallback evaluator
(`src/gui/python/ogulator_gui.py`).

The external calculator executable is not part of the repository, so every
subprocess invocation is modelled by an abstract outcome (`ProcOutcome`):
a completed process with an integer return code and captured stdout/stderr
text, a timeout (Python `subprocess.TimeoutExpired`), or any other raised
exception.  Wall-clock time is modelled by explicit parameters (iteration
fuel, elapsed milliseconds); GUI widget operations are modelled by the
output events they emit.
-/

namespace CppDynamicCalc

/-- Outcome of one `subprocess.run` invocation: a completed process
(return code, stdout, stderr), a `TimeoutExpired` exception, or some other
exception carrying a message. -/
inductive ProcOutcome where
  | ret (code : Int) (stdout stderr : String)
  | timeout
  | exn (msg : String)
deriving DecidableEq, Repr

/-- Holds (`listContains needle hay = true`) iff `needle` occurs as a contiguous
sublist of `hay`; models Python's `needle in hay` on strings. -/
def listContains (needle : List Char) : List Char → Bool
  | [] => needle.isPrefixOf []
  | c :: rest => needle.isPrefixOf (c :: rest) || listContains needle rest

/-- Python's substring test `needle in hay`. -/
def containsSub (hay needle : String) : Bool :=
  listContains needle.data hay.data

/-! ## `AxiomQATestSuite.test_daemon_handshake` — the command sent
(`src/axiom_qa_test_suite.py` line 127: `test_command = "2+2\\n"`).
In Python source, `"2+2\\n"` denotes the five characters `2`, `+`, `2`,
backslash, `n` — a literal backslash-n, not a newline. -/
def test_command : String := "2+2\\n"

/-! ## `AxiomQATestSuite.test_fuzzing` (lines 384-429) -/

/-- The fixed list of malformed inputs (lines 392-403).  The Python source
literal `"\\x00\\x01\\x02"` denotes twelve literal characters (backslash,
`x`, `0`, `0`, ...), not control bytes. -/
def malicious_inputs : List String :=
  [ "hgfdjhgf",
    "1/0",
    "sqrt(-1)",
    "integrate(x, [[1,2]",
    String.mk (List.replicate 1000 ')'),
    String.mk (List.replicate 10000 'x'),
    "\\x00\\x01\\x02",
    "../../../etc/passwd",
    "; rm -rf /",
    "' OR '1'='1" ]

/-- One iteration of the fuzzing loop body (lines 407-422): a crash is
counted exactly when the completed process's return code is negative;
timeouts and other exceptions fall into `except` arms that do not touch
the counter. -/
def crashStep (outcome : ProcOutcome) (crashes : Nat) : Nat :=
  match outcome with
  | .ret code _ _ => if code < 0 then crashes + 1 else crashes
  | .timeout => crashes
  | .exn _ => crashes

/-- The fuzzing loop: fold `crashStep` over the malformed inputs, where
`run input` is the outcome of `subprocess.run([axiom_path, input], ...)`. -/
def countCrashes (run : String → ProcOutcome) (inputs : List String) : Nat :=
  inputs.foldl (fun crashes input => crashStep (run input) crashes) 0

/-- The recorded fuzzing result (lines 424-429). -/
def test_fuzzing (run : String → ProcOutcome) : String :=
  let crashes := countCrashes run malicious_inputs
  if crashes = 0 then "PASS" else "FAIL - " ++ toString crashes ++ " crashes"

/-- Predicate: `outcome` is crash evidence, meaning a completed process that terminated by
signal (negative return code). -/
def isCrash (outcome : ProcOutcome) : Bool :=
  match outcome with
  | .ret code _ _ => decide (code < 0)
  | _ => false

/-! ## `AxiomQATestSuite.test_buffer_overflow` (lines 431-458) -/

/-- The very long input of line 441: `"1+" + "2+" * 10000 + "3"`. -/
def long_input : String :=
  "1+" ++ String.join (List.replicate 10000 "2+") ++ "3"

/-- The recorded buffer-overflow result: a non-negative return code is
`PASS`, a negative one is a crash, `TimeoutExpired` is accepted as
`PASS - Timeout`, any other exception is a failure (lines 443-458). -/
def test_buffer_overflow (run : String → ProcOutcome) : String :=
  match run long_input with
  | .ret code _ _ => if code ≥ 0 then "PASS" else "FAIL - Crash"
  | .timeout => "PASS - Timeout"
  | .exn msg => "FAIL - " ++ msg

/-! ## `AxiomQATestSuite.section_1_architecture_verification`,
binary identity check (lines 73-94) -/

/-- The binary identity test: run `[axiom_path, "--help"]`; `PASS` when the
fixed identification string occurs in stdout, plain `FAIL` otherwise; a
raised exception (including the 5-second timeout) is caught and recorded
as `FAIL - <exception>`.  `pathFound = false` models `self.axiom_path`
being `None` (lines 74-76). -/
def binary_identity (pathFound : Bool) (run : String → ProcOutcome) : String :=
  if !pathFound then "FAIL - Executable not found"
  else
    match run "--help" with
    | .ret _ stdout _ =>
        if containsSub stdout "AXIOM Engine v3.0" then "PASS" else "FAIL"
    | .timeout => "FAIL - TimeoutExpired"
    | .exn msg => "FAIL - " ++ msg

/-! ## `AxiomQATestSuite.test_daemon_handshake`, read loop (lines 131-152) -/

/-- The daemon response sentinel. -/
def END_OF_RESPONSE : String := "__END_OF_RESPONSE__"

/-- The character-at-a-time read loop (lines 132-141).  `fuel` counts the
remaining loop iterations of the 5-second window; `stream` is the sequence
of `stdout.read(1)` results during the window (`none` models an iteration
where no character was available).  A character is appended to the buffer
and the loop breaks as soon as the sentinel occurs in the buffer; an
exhausted stream leaves the buffer unchanged for the rest of the window. -/
def read_response : Nat → List (Option Char) → String → String
  | 0, _, response => response
  | _ + 1, [], response => response
  | fuel + 1, none :: rest, response => read_response fuel rest response
  | fuel + 1, some c :: rest, response =>
      let response' := response.push c
      if containsSub response' END_OF_RESPONSE then response'
      else read_response fuel rest response'

/-- The recorded handshake result (lines 145-152): `PASS` exactly when the
accumulated buffer contains the sentinel. -/
def test_daemon_handshake (fuel : Nat) (stream : List (Option Char)) : String :=
  let response := read_response fuel stream ""
  if containsSub response END_OF_RESPONSE then "PASS"
  else "FAIL - Protocol violation"

/-! ## `AxiomQATestSuite.test_linear_algebra` (lines 331-353) -/

/-- The linear-algebra functional test: run `[axiom_path, "2 * 3"]`;
`PASS` exactly when `"6"` occurs in stdout (the return code is not
inspected); a raised exception is recorded as `FAIL - <exception>`. -/
def test_linear_algebra (run : String → ProcOutcome) : String :=
  match run "2 * 3" with
  | .ret _ stdout _ => if containsSub stdout "6" then "PASS" else "FAIL"
  | .timeout => "FAIL - TimeoutExpired"
  | .exn msg => "FAIL - " ++ msg

/-! ## `AxiomQATestSuite.test_latency_ping` (lines 200-240) -/

/-- One latency iteration succeeds when the process completed with return
code `0` and `"2"` occurs in its stdout (line 220); any exception aborts
the loop through the surrounding `except` arm. -/
def calcOk (outcome : ProcOutcome) : Bool :=
  match outcome with
  | .ret code stdout _ => code == 0 && containsSub stdout "2"
  | _ => false

/-- Trace of the commands invoked by the latency loop (lines 212-223):
iteration `i` runs `[axiom_path, "1+1"]` and the loop aborts at the first
failing calculation.  `run i` is the outcome of the `i`-th invocation. -/
def latency_trace_from (run : Nat → ProcOutcome) (i : Nat) : Nat → List String
  | 0 => []
  | fuel + 1 =>
      "1+1" :: (if calcOk (run i) then latency_trace_from run (i + 1) fuel else [])

/-- The full latency-test invocation trace: `for i in range(100)`. -/
def latency_trace (run : Nat → ProcOutcome) : List String :=
  latency_trace_from run 0 100

/-! ## `AxiomQATestSuite.test_throughput_flood` (lines 242-279) -/

/-- The recorded throughput result in the non-exception path (lines
250-275): `PASS` exactly when the orchestrating process's resident memory
grew by fewer than `100 * 1024 * 1024` bytes, else a warning.  The memory
readings are the `psutil` RSS values before and after the loop. -/
def test_throughput_flood (initial_memory final_memory : Int) : String :=
  let memory_growth := final_memory - initial_memory
  if memory_growth < 100 * 1024 * 1024 then "PASS" else "WARN - Memory growth"

/-! ## `src/gui/python/ogulator_gui.py` — result dictionaries

The GUI passes Python dictionaries with a varying set of keys; they are
modelled as one structure whose optional keys default to `none`/`false`
(an absent key and a `False`/empty value are both falsy in the truthiness
tests the GUI performs). -/

structure CmdResult where
  success : Bool
  result : Option String := none
  error : Option String := none
  fallback_needed : Bool := false
  execution_time : Option Nat := none
  senna_speed : Bool := false
  f1_speed : Bool := false
  fast_eval : Bool := false
  cpp_failed : Bool := false
  fallback : Bool := false
  is_python : Bool := false
  special : Bool := false
  mode_change : Bool := false
deriving DecidableEq, Repr

/-- The engine-output filter of `CppEngineInterface.execute_command`
(lines 54-58): messages naming these fragments are discarded. -/
def loading_msgs : List String :=
  ["loaded successfully", "NumPy", "SciPy", "Matplotlib", "Pandas", "SymPy"]

/-- Lines 55-58: split the trimmed stdout into lines, keep those whose
strip is non-empty and that mention no loading-message fragment
(the fragment test runs on the unstripped line), then strip each. -/
def clean_lines (stdout : String) : List String :=
  let result_text := stdout.trim
  let lines := result_text.splitOn "\n"
  (lines.filter (fun line =>
    line.trim != "" && !(loading_msgs.any (fun msg => containsSub line msg)))).map
    String.trim

/-- Embedding of `CppEngineInterface.execute_command` (lines 24-94).
`executable_available` models the truthiness of `self.executable_path`;
`elapsed_ms` is the measured wall-clock time of the subprocess call
(a parameter here, since real time is outside the embedding). -/
def execute_command (executable_available : Bool) (outcome : ProcOutcome)
    (elapsed_ms : Nat) : CmdResult :=
  if !executable_available then
    { success := false, error := some "C++ engine not available",
      fallback_needed := true }
  else
    match outcome with
    | .ret code stdout stderr =>
        if code = 0 then
          match (clean_lines stdout).getLast? with
          | some final_result =>
              { success := true, result := some final_result,
                execution_time := some elapsed_ms,
                senna_speed := decide (elapsed_ms < 100),
                f1_speed := decide (elapsed_ms < 200) }
          | none =>
              { success := true, result := some "Processed",
                execution_time := some elapsed_ms }
        else
          { success := false,
            error := some (if stderr != "" then stderr.trim else "Execution failed"),
            fallback_needed := true }
    | .timeout =>
        { success := false,
          error := some "C++ engine timeout (3s) - using Python fallback",
          fallback_needed := true }
    | .exn msg =>
        { success := false, error := some msg, fallback_needed := true }

/-- One line written to the GUI output widget by `add_output`: either a
result line or an error line. -/
inductive GuiOutput where
  | resultLine (text : String)
  | errorLine (text : String)
deriving DecidableEq, Repr

/-- Embedding of `OGULATORCalculatorGUI.handle_command_result` (lines 674-733),
restricted to the output line it emits (`none` when no line is written).
`fallback_eval` is the GUI's local evaluator `python_math_fallback`
applied to the same command; a missing `result` key on its success value
models the `KeyError` path swallowed by the bare `except`. -/
def handle_command_result (fallback_eval : String → CmdResult)
    (result : CmdResult) (command : String) : Option GuiOutput :=
  if result.success then
    match result.result with
    | some result_text =>
        if result_text != "" then
          let exec_time := result.execution_time.getD 0
          if result.senna_speed then
            some (.resultLine ("🏎️ " ++ result_text ++ " (SENNA SPEED: "
              ++ toString exec_time ++ "ms!)"))
          else if result.f1_speed then
            some (.resultLine ("🏁 " ++ result_text ++ " (F1 SPEED: "
              ++ toString exec_time ++ "ms)"))
          else if exec_time != 0 then
            some (.resultLine ("🚀 " ++ result_text ++ " (C++ engine: "
              ++ toString exec_time ++ "ms)"))
          else if result.fast_eval then
            some (.resultLine ("⚡ " ++ result_text ++ " (Fast Python)"))
          else if result.fallback then
            some (.resultLine ("🐍 " ++ result_text ++ " (Python fallback)"))
          else if result.cpp_failed then
            some (.resultLine ("🐍 " ++ result_text ++ " (C++ timeout → Python)"))
          else if result.is_python then
            some (.resultLine (">>> " ++ result_text))
          else
            some (.resultLine ("🚀 " ++ result_text ++ " (C++ engine)"))
        else none
    | none => none
  else
    let error_msg := result.error.getD "Unknown error"
    if result.fallback_needed then
      let fallback_result := fallback_eval command
      if fallback_result.success then
        match fallback_result.result with
        | some result_text =>
            some (.resultLine ("🐍 " ++ result_text ++ " (Auto-fallback)"))
        | none => some (.errorLine ("❌ Error: " ++ error_msg))
      else some (.errorLine ("❌ Error: " ++ error_msg))
    else some (.errorLine ("❌ Error: " ++ error_msg))

/-! ## `OGULATORCalculatorGUI.is_simple_arithmetic` (lines 618-633)

The four anchored regular expressions of the source are compiled by hand.
All adjacent pieces of each pattern (`\s*` vs `\d`, `\s*` vs the operator
class, ...) have disjoint character classes, so greedy matching without
backtracking is equivalent to the regex semantics; Python's `$` (which
also matches before one trailing newline) is subsumed because every
pattern ends in `\s*$` and `\n` belongs to `\s`. -/

/-- Python's `\s` class over ASCII: space, tab, newline, carriage return,
vertical tab, form feed. -/
def isPySpace (c : Char) : Bool :=
  c = ' ' || c = '\t' || c = '\n' || c = '\r' || c = '\x0b' || c = '\x0c'

/-- Regex piece `\s*`: greedily discard whitespace. -/
def dropSpaces (l : List Char) : List Char := l.dropWhile isPySpace

/-- Regex piece `\d+`: at least one digit, greedily consumed. -/
def matchDigits : List Char → Option (List Char)
  | c :: rest => if c.isDigit then some (rest.dropWhile Char.isDigit) else none
  | [] => none

/-- The operator class `[+\-*/]`. -/
def isOpChar (c : Char) : Bool := c = '+' || c = '-' || c = '*' || c = '/'

/-- One operator character. -/
def matchOp : List Char → Option (List Char)
  | c :: rest => if isOpChar c then some rest else none
  | [] => none

/-- One fixed character. -/
def matchChar (target : Char) : List Char → Option (List Char)
  | c :: rest => if c = target then some rest else none
  | [] => none

/-- Regex piece `\s*$`: only whitespace remains. -/
def atEnd (l : List Char) : Bool := (dropSpaces l).isEmpty

/-- Pattern `^\s*\d+\s*[+\-*/]\s*\d+\s*$`. -/
def pattern_basic (s : List Char) : Bool :=
  match matchDigits (dropSpaces s) with
  | none => false
  | some r1 =>
    match matchOp (dropSpaces r1) with
    | none => false
    | some r2 =>
      match matchDigits (dropSpaces r2) with
      | none => false
      | some r3 => atEnd r3

/-- Pattern `^\s*\(\s*\d+\s*[+\-*/]\s*\d+\s*\)\s*[+\-*/]\s*\d+\s*$`. -/
def pattern_paren (s : List Char) : Bool :=
  match matchChar '(' (dropSpaces s) with
  | none => false
  | some r0 =>
    match matchDigits (dropSpaces r0) with
    | none => false
    | some r1 =>
      match matchOp (dropSpaces r1) with
      | none => false
      | some r2 =>
        match matchDigits (dropSpaces r2) with
        | none => false
        | some r3 =>
          match matchChar ')' (dropSpaces r3) with
          | none => false
          | some r4 =>
            match matchOp (dropSpaces r4) with
            | none => false
            | some r5 =>
              match matchDigits (dropSpaces r5) with
              | none => false
              | some r6 => atEnd r6

/-- Pattern `^\s*\d+\s*\*\*\s*\d+\s*$`. -/
def pattern_power (s : List Char) : Bool :=
  match matchDigits (dropSpaces s) with
  | none => false
  | some r1 =>
    match matchChar '*' (dropSpaces r1) with
    | none => false
    | some r2 =>
      match matchChar '*' r2 with
      | none => false
      | some r3 =>
        match matchDigits (dropSpaces r3) with
        | none => false
        | some r4 => atEnd r4

/-- Pattern `^\s*\d+\s*[+\-*/]\s*\d+\s*[+\-*/]\s*\d+\s*$`. -/
def pattern_multi (s : List Char) : Bool :=
  match matchDigits (dropSpaces s) with
  | none => false
  | some r1 =>
    match matchOp (dropSpaces r1) with
    | none => false
    | some r2 =>
      match matchDigits (dropSpaces r2) with
      | none => false
      | some r3 =>
        match matchOp (dropSpaces r3) with
        | none => false
        | some r4 =>
          match matchDigits (dropSpaces r4) with
          | none => false
          | some r5 => atEnd r5

/-- Embedding of `is_simple_arithmetic`: `any(re.match(pattern, command) ...)` over the
four patterns. -/
def is_simple_arithmetic (command : String) : Bool :=
  pattern_basic command.data || pattern_paren command.data ||
  pattern_power command.data || pattern_multi command.data

/-! ## `OGULATORCalculatorGUI.change_mode_command` (lines 735-764) and
`execute_math_command` (lines 575-616) -/

/-- The `mode_map` dictionary. -/
def mode_map : List (String × String) :=
  [ ("algebraic", "ALGEBRAIC"), ("linear", "LINEAR SYSTEM"),
    ("stats", "STATISTICS"), ("symbolic", "SYMBOLIC"),
    ("plot", "PLOTTING"), ("units", "UNITS"),
    ("python", "PYTHON"), ("numpy", "NUMPY"),
    ("scipy", "SCIPY"), ("matplotlib", "MATPLOTLIB"),
    ("pandas", "PANDAS"), ("sympy", "SYMPY") ]

/-- Embedding of `change_mode_command` (the `mode_label` widget update is elided). -/
def change_mode_command (mode : String) : CmdResult :=
  match mode_map.find? (fun p => p.1 == mode) with
  | some p =>
      { success := true, result := some ("✓ Switched to " ++ p.2 ++ " mode") }
  | none =>
      { success := false, result := none,
        error := some ("Unknown mode: " ++ mode) }

/-- Python's `str.lower()` (ASCII fragment): lowercase each character. -/
def pyLower (s : String) : String := String.mk (s.data.map Char.toLower)

/-- Python's `str.startswith(pre)`. -/
def pyStartsWith (s pre : String) : Bool := pre.data.isPrefixOf s.data

/-- Python's `command.split(' ', 1)[1]`: everything after the first
space. -/
def afterFirstSpace (s : String) : String :=
  String.mk ((s.data.dropWhile (fun c => c ≠ ' ')).drop 1)

/-- Embedding of `execute_math_command` (lines 575-616).  `engine` is
`self.cpp_engine.execute_command`; `fallback_eval` is
`self.python_math_fallback`; `engine_available` models
`self.engine_available and self.cpp_engine` (both are set together in
`init_cpp_engine`).  The second component of the value records whether
the external C++ engine was invoked. -/
def execute_math_command (engine_available : Bool) (engine : String → CmdResult)
    (fallback_eval : String → CmdResult) (command : String) :
    CmdResult × Bool :=
  if pyLower command = "help" then
    ({ success := true, result := some "Help dialog opened", special := true },
     false)
  else if pyStartsWith (pyLower command) "mode " then
    (change_mode_command (afterFirstSpace command), false)
  else if pyLower command = "python" || pyLower command = "py"
      || pyLower command = "repl" then
    ({ success := true,
       result := some ("=== Python Interactive REPL Mode ===\n"
         ++ "Type exit() to return to calculator mode"),
       mode_change := true }, false)
  else
    match (if is_simple_arithmetic command then
             let fallback_result := fallback_eval command
             if fallback_result.success then
               some { fallback_result with fast_eval := true }
             else none
           else none) with
    | some r => (r, false)
    | none =>
      if engine_available then
        let cpp_result := engine command
        if cpp_result.success then (cpp_result, true)
        else
          let fallback_result := fallback_eval command
          if fallback_result.success then
            ({ fallback_result with cpp_failed := true }, true)
          else (cpp_result, true)
      else (fallback_eval command, false)

/-! ## `OGULATORCalculatorGUI.python_math_fallback` (lines 635-672)

The source calls Python's `eval(command, safe_dict)` on the typed string.
The expression language is modelled by a small abstract syntax
(`PyExpr`): integer literals, free names, the arithmetic operators, and
unary function application.  The numeric domain is modelled over `Int`
(floating point is outside the embedding), and applying a whitelisted
function yields a symbolic value — the claims under study concern the
evaluation environment and error discipline, not the numerics of `math`.
Name resolution reproduces `eval`'s over the globals dictionary
`safe_dict`: every key of the dictionary resolves — including
`'__builtins__'`, whose value is the empty dictionary, so the bare name
`__builtins__` evaluates to `{}` — and there is no builtins fallback for
any other name. -/

inductive PyOp where
  | add | sub | mul | div
deriving DecidableEq, Repr

inductive PyExpr where
  | lit (n : Int)
  | name (s : String)
  | binop (op : PyOp) (a b : PyExpr)
  | call (f : String) (arg : PyExpr)
deriving DecidableEq, Repr

/-- Values: integers, the whitelisted callables (symbolic), the empty
dictionary bound to `'__builtins__'`, and symbolic results of applying a
whitelisted callable. -/
inductive PyVal where
  | int (n : Int)
  | builtin (s : String)
  | emptyDict
  | app (f : String) (arg : PyVal)
deriving DecidableEq, Repr

/-- The keys of `safe_dict` other than `'__builtins__'` (lines 641-650). -/
def math_names : List String :=
  [ "abs", "round", "pow", "min", "max",
    "sin", "cos", "tan", "asin", "acos", "atan",
    "log", "log10", "exp", "sqrt", "pi", "e",
    "degrees", "radians", "factorial", "ceil", "floor" ]

/-- The keys added when NumPy is available (lines 653-658). -/
def numpy_names : List String := ["np", "array", "sum", "mean", "std"]

/-- The `safe_dict` globals dictionary (lines 641-658) as an association
list: the `'__builtins__'` key bound to the empty dictionary, then the
fixed mathematical whitelist, then the NumPy names when
`self.available_packages` reports NumPy. -/
def safe_dict (numpy_available : Bool) : List (String × PyVal) :=
  ("__builtins__", PyVal.emptyDict)
    :: (math_names.map (fun s => (s, PyVal.builtin s))
        ++ (if numpy_available then
              numpy_names.map (fun s => (s, PyVal.builtin s))
            else []))

/-- The keys of `safe_dict`: exactly the names that resolve under
`eval` (the `'__builtins__'` value is empty, so no further builtin name
resolves). -/
def safe_dict_names (numpy_available : Bool) : List String :=
  (safe_dict numpy_available).map Prod.fst

/-- Applying an arithmetic operator; non-numeric operands and division by
zero raise (and are later caught by `python_math_fallback`). -/
def pyApplyOp (op : PyOp) : PyVal → PyVal → Except String PyVal
  | .int a, .int b =>
      match op with
      | .add => .ok (.int (a + b))
      | .sub => .ok (.int (a - b))
      | .mul => .ok (.int (a * b))
      | .div => if b = 0 then .error "division by zero" else .ok (.int (a / b))
  | _, _ => .error "unsupported operand type(s)"

/-- Model of `eval(command, safe_dict)`: strict evaluation over the
globals association list; a name absent from the globals raises
`NameError` (the empty `'__builtins__'` offers no fallback), calling a
name resolves it first, and calling a non-callable (the empty dictionary)
raises `TypeError`. -/
def py_eval (env : List (String × PyVal)) : PyExpr → Except String PyVal
  | .lit n => .ok (.int n)
  | .name s =>
      match env.find? (fun p => p.1 == s) with
      | some p => .ok p.2
      | none => .error ("name '" ++ s ++ "' is not defined")
  | .binop op a b =>
      match py_eval env a with
      | .error e => .error e
      | .ok va =>
        match py_eval env b with
        | .error e => .error e
        | .ok vb => pyApplyOp op va vb
  | .call f arg =>
      match env.find? (fun p => p.1 == f) with
      | none => .error ("name '" ++ f ++ "' is not defined")
      | some p =>
          match py_eval env arg with
          | .error e => .error e
          | .ok v =>
              match p.2 with
              | .builtin g => .ok (.app g v)
              | _ => .error "object is not callable"

/-- Rendering `str(result)` for the returned dictionary; the empty
dictionary prints as `{}` (function objects are kept symbolic). -/
def pyValToString : PyVal → String
  | .int n => toString n
  | .builtin s => s
  | .emptyDict => "\x7b\x7d"
  | .app f v => f ++ "(" ++ pyValToString v ++ ")"

/-- Embedding of `python_math_fallback`: evaluate under `safe_dict`; a success returns
`str(result)`, any raised exception is caught and turned into a failure
dictionary carrying the exception message (lines 660-672). -/
def python_math_fallback (numpy_available : Bool) (command : PyExpr) :
    CmdResult :=
  match py_eval (safe_dict numpy_available) command with
  | .ok v =>
      { success := true, result := some (pyValToString v), fallback := true }
  | .error e =>
      { success := false, result := none, error := some e }

/-- The names the expression references. -/
def freeNames : PyExpr → List String
  | .lit _ => []
  | .name s => [s]
  | .binop _ a b => freeNames a ++ freeNames b
  | .call f arg => f :: freeNames arg

/-! ## Helper lemmas -/

/-- No recorded failure string equals the `PASS` marker. -/
theorem fail_ne_pass (s : String) : "FAIL - " ++ s ≠ "PASS" := by
  intro h
  have hd := congrArg String.data h
  have h2 : ('F' :: "AIL - ".data) ++ s.data = 'P' :: "ASS".data := hd
  rw [List.cons_append] at h2
  exact absurd (List.head_eq_of_cons_eq h2) (by decide)

/-- The fuzzing loop body counts exactly the crash outcomes. -/
theorem crashStep_eq (outcome : ProcOutcome) (n : Nat) :
    crashStep outcome n = if isCrash outcome then n + 1 else n := by
  cases outcome <;> simp [crashStep, isCrash]

/-- Unfolding the fuzzing fold: the crash count is the number of inputs
whose outcome is crash evidence. -/
theorem countCrashes_foldl (run : String → ProcOutcome) (inputs : List String)
    (n : Nat) :
    inputs.foldl (fun crashes input => crashStep (run input) crashes) n
      = n + (inputs.filter (fun input => isCrash (run input))).length := by
  induction inputs generalizing n with
  | nil => simp
  | cons head tail ih =>
    rw [List.foldl_cons, List.filter_cons, crashStep_eq]
    by_cases hc : isCrash (run head) = true
    · rw [if_pos hc, if_pos hc, ih]
      simp
      omega
    · rw [if_neg hc, if_neg (by simp_all), ih]

/-- A character that is a digit, an opening parenthesis, or Python
whitespace is fixed by `Char.toLower`. -/
theorem toLower_fixed (c : Char)
    (h : c.isDigit = true ∨ c = '(' ∨ isPySpace c = true) :
    Char.toLower c = c := by
  rcases h with h | h | h
  · have hle : c.val ≤ 57 := by
      simp [Char.isDigit] at h
      exact h.2
    have hnat : c.toNat ≤ 57 := UInt32.toNat_le_of_le (by norm_num) hle
    simp only [Char.toLower]
    rw [if_neg]
    omega
  · subst h; decide
  · simp only [isPySpace, Bool.or_eq_true, decide_eq_true_eq] at h
    rcases h with ((((h | h) | h) | h) | h) | h <;> subst h <;> decide

/-- Every simple-arithmetic pattern begins, after leading whitespace,
with a digit or an opening parenthesis. -/
theorem first_char_class (command : String)
    (h : is_simple_arithmetic command = true) :
    ∃ c l, dropSpaces command.data = c :: l ∧ (c.isDigit = true ∨ c = '(') := by
  unfold is_simple_arithmetic at h
  cases hd : dropSpaces command.data with
  | nil =>
    exfalso
    rw [pattern_basic, pattern_paren, pattern_power, pattern_multi, hd] at h
    simp [matchDigits, matchChar] at h
  | cons c l =>
    refine ⟨c, l, rfl, ?_⟩
    by_contra hc
    push_neg at hc
    obtain ⟨hc1, hc2⟩ := hc
    rw [pattern_basic, pattern_paren, pattern_power, pattern_multi, hd] at h
    simp [matchDigits, matchChar, hc1, hc2, Bool.not_eq_true] at h

/-- The lowered form of a simple-arithmetic command starts with a digit,
an opening parenthesis, or whitespace. -/
theorem pyLower_head_class (command : String)
    (hsimple : is_simple_arithmetic command = true)
    {c0 : Char} {rest : List Char}
    (hl : (pyLower command).data = c0 :: rest) :
    c0.isDigit = true ∨ c0 = '(' ∨ isPySpace c0 = true := by
  obtain ⟨c, l, hdrop, hclass⟩ := first_char_class command hsimple
  cases hcd : command.data with
  | nil =>
    rw [pyLower, hcd] at hl
    simp at hl
  | cons h1 t1 =>
    rw [pyLower, hcd] at hl
    simp only [List.map_cons] at hl
    have hc0 : c0 = Char.toLower h1 := by
      have := (List.cons.injEq _ _ _ _).mp hl
      exact this.1.symm
    by_cases hsp : isPySpace h1
    · right; right
      rw [hc0, toLower_fixed h1 (Or.inr (Or.inr hsp))]
      exact hsp
    · rw [dropSpaces, hcd, List.dropWhile_cons] at hdrop
      rw [Bool.not_eq_true] at hsp
      rw [hsp] at hdrop
      simp at hdrop
      obtain ⟨hh1, _⟩ := hdrop
      rw [hc0, hh1, toLower_fixed c (Or.imp_right Or.inl hclass)]
      exact Or.imp_right Or.inl hclass

/-- A simple-arithmetic command triggers none of the special-command
branches of `execute_math_command`. -/
theorem simple_not_special (command : String)
    (h : is_simple_arithmetic command = true) :
    pyLower command ≠ "help"
    ∧ pyStartsWith (pyLower command) "mode " = false
    ∧ pyLower command ≠ "python"
    ∧ pyLower command ≠ "py"
    ∧ pyLower command ≠ "repl" := by
  refine ⟨?_, ?_, ?_, ?_, ?_⟩
  · intro heq
    have hd : (pyLower command).data = 'h' :: ['e', 'l', 'p'] := by
      rw [heq]
    have := pyLower_head_class command h hd
    simp [isPySpace] at this
  · by_contra hpre
    rw [Bool.not_eq_false] at hpre
    rw [pyStartsWith] at hpre
    cases hd : (pyLower command).data with
    | nil => rw [hd] at hpre; simp [List.isPrefixOf] at hpre
    | cons c0 r =>
      rw [hd] at hpre
      have hm : ("mode " : String).data = 'm' :: "ode ".data := rfl
      rw [hm] at hpre
      simp only [List.isPrefixOf, Bool.and_eq_true, beq_iff_eq] at hpre
      have hc0 : c0 = 'm' := hpre.1.symm
      subst hc0
      have := pyLower_head_class command h hd
      simp [isPySpace] at this
  · intro heq
    have hd : (pyLower command).data = 'p' :: "ython".data := by rw [heq]
    have := pyLower_head_class command h hd
    simp [isPySpace] at this
  · intro heq
    have hd : (pyLower command).data = 'p' :: "y".data := by rw [heq]
    have := pyLower_head_class command h hd
    simp [isPySpace] at this
  · intro heq
    have hd : (pyLower command).data = 'r' :: "epl".data := by rw [heq]
    have := pyLower_head_class command h hd
    simp [isPySpace] at this

/-! ## Claim theorems -/

/-- C1: the claim states that the string the daemon handshake test writes
to the daemon's standard input for the test expression `2+2` ends with a
newline character.  The source line `test_command = "2+2\\n"` escapes the
backslash, so the transmitted string is the five characters
`2`, `+`, `2`, `\`, `n`: its last character is the letter `n`, not a
newline.  The code contradicts the documented daemon protocol
(newline-terminated expressions); this records the divergence. -/
theorem C1_test_command_not_newline_terminated :
    test_command.data = ['2', '+', '2', '\\', 'n']
    ∧ test_command.data.getLast? = some 'n'
    ∧ test_command.data.getLast? ≠ some '\n' := by decide

/-- C2: the fuzzing test counts a crash exactly when the subprocess
outcome is a completed process with a negative return code (timeouts,
other exceptions and non-negative — including non-zero — return codes are
never counted), and it records `PASS` iff the crash count over the ten
malformed inputs is zero. -/
theorem C2_fuzzing_counts_negative_returncodes (run : String → ProcOutcome) :
    countCrashes run malicious_inputs
      = (malicious_inputs.filter (fun input => isCrash (run input))).length
    ∧ (∀ outcome, isCrash outcome = true
        ↔ ∃ code stdout stderr,
            outcome = ProcOutcome.ret code stdout stderr ∧ code < 0)
    ∧ (test_fuzzing run = "PASS" ↔ countCrashes run malicious_inputs = 0) := by
  refine ⟨?_, ?_, ?_⟩
  · rw [countCrashes, countCrashes_foldl run malicious_inputs 0, Nat.zero_add]
  · intro outcome
    cases outcome with
    | ret code stdout stderr => simp [isCrash]
    | timeout => simp [isCrash]
    | exn msg => simp [isCrash]
  · rw [test_fuzzing]
    by_cases hz : countCrashes run malicious_inputs = 0
    · simp [hz]
    · rw [if_neg hz]
      constructor
      · intro h
        exact absurd h (fail_ne_pass _)
      · intro h
        exact absurd h hz

/-- C3: the daemon handshake test accumulates daemon stdout one character
at a time; the read loop returns the buffer unchanged when the 5-second
window elapses (zero fuel), stops immediately — consuming no further
characters and no further fuel — as soon as the sentinel occurs in the
accumulated buffer, and the recorded result is `PASS` iff the final
buffer contains the sentinel. -/
theorem C3_daemon_handshake_read (fuel : Nat) (stream rest : List (Option Char))
    (c : Char) (response : String)
    (hstop : containsSub (response.push c) END_OF_RESPONSE = true) :
    read_response 0 stream response = response
    ∧ read_response (fuel + 1) (some c :: rest) response = response.push c
    ∧ (test_daemon_handshake fuel stream = "PASS"
        ↔ containsSub (read_response fuel stream "") END_OF_RESPONSE = true) := by
  refine ⟨rfl, ?_, ?_⟩
  · rw [read_response]
    simp [hstop]
  · rw [test_daemon_handshake]
    by_cases hc : containsSub (read_response fuel stream "") END_OF_RESPONSE = true
    · simp [hc]
    · rw [Bool.not_eq_true] at hc
      simp only [hc]
      constructor
      · intro h
        exact absurd h (by decide)
      · intro h
        simp at h

/-- C3 witness: concrete instantiation at a buffer one character short of
the sentinel. -/
theorem C3_daemon_handshake_read_witness :
    containsSub (String.push "x__END_OF_RESPONSE_" '_') END_OF_RESPONSE = true
    ∧ (read_response 0 [] "x__END_OF_RESPONSE_" = "x__END_OF_RESPONSE_"
       ∧ read_response (0 + 1) (some '_' :: []) "x__END_OF_RESPONSE_"
           = String.push "x__END_OF_RESPONSE_" '_'
       ∧ (test_daemon_handshake 0 [] = "PASS"
           ↔ containsSub (read_response 0 [] "") END_OF_RESPONSE = true)) :=
  ⟨by decide,
   C3_daemon_handshake_read 0 [] [] '_' "x__END_OF_RESPONSE_" (by decide)⟩

/-- Helper: every failing engine invocation is marked as needing
fallback. -/
theorem execute_command_fail_fallback (executable_available : Bool)
    (outcome : ProcOutcome) (elapsed_ms : Nat)
    (hfail : (execute_command executable_available outcome elapsed_ms).success
      = false) :
    (execute_command executable_available outcome elapsed_ms).fallback_needed
      = true := by
  cases executable_available with
  | false => rfl
  | true =>
    cases outcome with
    | ret code stdout stderr =>
      by_cases hc : code = 0
      · exfalso
        rw [execute_command] at hfail
        simp only [Bool.not_true, Bool.false_eq_true, if_false, hc, if_pos] at hfail
        cases hgl : (clean_lines stdout).getLast? <;> rw [hgl] at hfail <;>
          simp at hfail
      · rw [execute_command]
        simp [hc]
    | timeout => rfl
    | exn msg => rfl

/-- C4: whenever the external engine invocation fails (engine unavailable,
non-zero exit code, timeout, or any other exception) the returned
dictionary is marked `fallback_needed`, and if the local fallback
evaluator then succeeds on the same command, `handle_command_result`
emits the fallback value as a result line (never the engine's error). -/
theorem C4_engine_failure_auto_fallback (executable_available : Bool)
    (outcome : ProcOutcome) (elapsed_ms : Nat)
    (fallback_eval : String → CmdResult) (command : String) (t : String)
    (hfail : (execute_command executable_available outcome elapsed_ms).success
      = false)
    (hfb : (fallback_eval command).success = true)
    (hres : (fallback_eval command).result = some t) :
    (execute_command executable_available outcome elapsed_ms).fallback_needed
      = true
    ∧ handle_command_result fallback_eval
        (execute_command executable_available outcome elapsed_ms) command
      = some (GuiOutput.resultLine ("🐍 " ++ t ++ " (Auto-fallback)")) := by
  have hfn := execute_command_fail_fallback executable_available outcome
    elapsed_ms hfail
  refine ⟨hfn, ?_⟩
  rw [handle_command_result, hfail]
  simp only [Bool.false_eq_true, if_false, hfn, if_true, hfb, hres]

/-- C4 witness: unavailable engine, successful local fallback. -/
theorem C4_engine_failure_auto_fallback_witness :
    (execute_command false ProcOutcome.timeout 0).success = false
    ∧ ((fun _ => ({ success := true, result := some "4" } : CmdResult)) "2+2").success
        = true
    ∧ ((fun _ => ({ success := true, result := some "4" } : CmdResult)) "2+2").result
        = some "4"
    ∧ ((execute_command false ProcOutcome.timeout 0).fallback_needed = true
       ∧ handle_command_result
           (fun _ => ({ success := true, result := some "4" } : CmdResult))
           (execute_command false ProcOutcome.timeout 0) "2+2"
         = some (GuiOutput.resultLine ("🐍 " ++ "4" ++ " (Auto-fallback)"))) :=
  ⟨rfl, rfl, rfl,
   C4_engine_failure_auto_fallback false ProcOutcome.timeout 0
     (fun _ => { success := true, result := some "4" }) "2+2" "4" rfl rfl rfl⟩

/-- C5: the binary-identity test records `PASS` iff the path was found,
the `--help` invocation completed without an exception, and its standard
output contains the fixed identification string; a completed invocation
whose output lacks the string is recorded as plain `FAIL`. -/
theorem C5_binary_identity_pass_iff (pathFound : Bool)
    (run : String → ProcOutcome) :
    (binary_identity pathFound run = "PASS"
      ↔ pathFound = true
        ∧ ∃ code stdout stderr,
            run "--help" = ProcOutcome.ret code stdout stderr
            ∧ containsSub stdout "AXIOM Engine v3.0" = true)
    ∧ (∀ code stdout stderr,
        pathFound = true →
        run "--help" = ProcOutcome.ret code stdout stderr →
        containsSub stdout "AXIOM Engine v3.0" = false →
        binary_identity pathFound run = "FAIL") := by
  constructor
  · cases pathFound with
    | false =>
      rw [binary_identity]
      simp only [Bool.not_false, if_true]
      constructor
      · intro h
        exact absurd h (by decide)
      · intro h
        simp at h
    | true =>
      rw [binary_identity]
      simp only [Bool.not_true, Bool.false_eq_true, if_false]
      cases hr : run "--help" with
      | ret code stdout stderr =>
        by_cases hc : containsSub stdout "AXIOM Engine v3.0" = true
        · simp only [hc, if_true]
          constructor
          · intro _
            exact ⟨trivial, code, stdout, stderr, rfl, hc⟩
          · intro _
            trivial
        · rw [Bool.not_eq_true] at hc
          simp only [hc, Bool.false_eq_true, if_false]
          constructor
          · intro h
            exact absurd h (by decide)
          · rintro ⟨-, code', stdout', stderr', heq, hcon⟩
            injection heq with h1 h2 h3
            rw [← h2] at hcon
            rw [hc] at hcon
            cases hcon
      | timeout =>
        constructor
        · intro h
          exact absurd h (by decide)
        · rintro ⟨-, code', stdout', stderr', heq, -⟩
          cases heq
      | exn msg =>
        constructor
        · intro h
          exact absurd h (fail_ne_pass msg)
        · rintro ⟨-, code', stdout', stderr', heq, -⟩
          cases heq
  · intro code stdout stderr hpf hr hcon
    subst hpf
    rw [binary_identity]
    simp only [Bool.not_true, Bool.false_eq_true, if_false, hr, hcon]

/-- C5 witness: a found executable whose `--help` output lacks the
identification string records `FAIL`. -/
theorem C5_binary_identity_pass_iff_witness :
    binary_identity true (fun _ => ProcOutcome.ret 0 "usage: calc" "")
      = "FAIL" :=
  (C5_binary_identity_pass_iff true
      (fun _ => ProcOutcome.ret 0 "usage: calc" "")).2
    0 "usage: calc" "" rfl rfl (by decide)

/-- C6: the linear-algebra functional test invokes the executable on
`2 * 3` and records `PASS` iff the substring `6` occurs in its standard
output; a completed invocation without such output records `FAIL`. -/
theorem C6_linear_algebra_pass_iff (run : String → ProcOutcome)
    (code : Int) (stdout stderr : String)
    (hrun : run "2 * 3" = ProcOutcome.ret code stdout stderr) :
    (test_linear_algebra run = "PASS" ↔ containsSub stdout "6" = true)
    ∧ (containsSub stdout "6" = false → test_linear_algebra run = "FAIL") := by
  constructor
  · rw [test_linear_algebra, hrun]
    by_cases hc : containsSub stdout "6" = true
    · simp [hc]
    · rw [Bool.not_eq_true] at hc
      simp only [hc, Bool.false_eq_true, if_false]
      constructor
      · intro h
        exact absurd h (by decide)
      · intro h
        cases h
  · intro hc
    rw [test_linear_algebra, hrun]
    simp only [hc, Bool.false_eq_true, if_false]

/-- C6 witness: output `6` yields `PASS`; the `FAIL` arm is exercised
with a vacuous antecedent. -/
theorem C6_linear_algebra_pass_iff_witness :
    ((fun _ => ProcOutcome.ret 0 "6" "") "2 * 3" = ProcOutcome.ret 0 "6" "")
    ∧ ((test_linear_algebra (fun _ => ProcOutcome.ret 0 "6" "") = "PASS"
        ↔ containsSub "6" "6" = true)
       ∧ (containsSub "6" "6" = false →
           test_linear_algebra (fun _ => ProcOutcome.ret 0 "6" "") = "FAIL")) :=
  ⟨rfl, C6_linear_algebra_pass_iff (fun _ => ProcOutcome.ret 0 "6" "") 0 "6" "" rfl⟩

/-- C7: a `TimeoutExpired` invocation is never a recorded failure: in the
fuzzing loop a timed-out input contributes nothing to the crash count,
and a timed-out buffer-overflow invocation records `PASS - Timeout`. -/
theorem C7_timeout_never_failure (run : String → ProcOutcome)
    (pre post : List String) (input : String)
    (htimeout : run input = ProcOutcome.timeout)
    (hbuf : run long_input = ProcOutcome.timeout) :
    countCrashes run (pre ++ input :: post) = countCrashes run (pre ++ post)
    ∧ test_buffer_overflow run = "PASS - Timeout" := by
  constructor
  · rw [countCrashes, countCrashes, countCrashes_foldl, countCrashes_foldl]
    rw [List.filter_append, List.filter_append, List.filter_cons]
    have hnc : isCrash (run input) = false := by rw [htimeout]; rfl
    rw [hnc]
    simp
  · rw [test_buffer_overflow, hbuf]

/-- C7 witness: an engine that always times out. -/
theorem C7_timeout_never_failure_witness :
    ((fun _ => ProcOutcome.timeout) "x" = ProcOutcome.timeout)
    ∧ ((fun _ => ProcOutcome.timeout) long_input = ProcOutcome.timeout)
    ∧ (countCrashes (fun _ => ProcOutcome.timeout) ([] ++ "x" :: [])
         = countCrashes (fun _ => ProcOutcome.timeout) ([] ++ [])
       ∧ test_buffer_overflow (fun _ => ProcOutcome.timeout) = "PASS - Timeout") :=
  ⟨rfl, rfl, C7_timeout_never_failure (fun _ => ProcOutcome.timeout) [] [] "x" rfl rfl⟩

/-- Helper: every command invoked by the latency loop is the trivial
expression `1+1`. -/
theorem latency_trace_from_cmds (run : Nat → ProcOutcome) (i fuel : Nat) :
    ∀ cmd ∈ latency_trace_from run i fuel, cmd = "1+1" := by
  induction fuel generalizing i with
  | zero =>
    intro cmd hmem
    simp [latency_trace_from] at hmem
  | succ n ih =>
    intro cmd hmem
    rw [latency_trace_from] at hmem
    rcases List.mem_cons.mp hmem with h | h
    · exact h
    · by_cases hok : calcOk (run i) = true
      · rw [if_pos hok] at h
        exact ih (i + 1) cmd h
      · rw [if_neg hok] at h
        cases h

/-- Helper: when every invocation in the window succeeds, the latency
loop runs for its whole fuel. -/
theorem latency_trace_from_length (run : Nat → ProcOutcome) (fuel : Nat) :
    ∀ i, (∀ j, j < fuel → calcOk (run (i + j)) = true) →
      (latency_trace_from run i fuel).length = fuel := by
  induction fuel with
  | zero => intro i _; rfl
  | succ n ih =>
    intro i h
    rw [latency_trace_from]
    have h0 : calcOk (run i) = true := by
      have := h 0 (Nat.succ_pos n)
      simpa using this
    rw [if_pos h0, List.length_cons]
    rw [ih (i + 1) (fun j hj => by
      have := h (j + 1) (Nat.succ_lt_succ hj)
      have heq : i + (j + 1) = i + 1 + j := by omega
      rwa [heq] at this)]

/-- C8: the latency test performs 100 sequential invocations of the
expression `1+1` (exactly 100 when each invocation completes with return
code 0 and output containing `2`), and the throughput test records `PASS`
iff the orchestrating test process's resident memory grew by fewer than
100 MiB across its repeated invocations. -/
theorem C8_latency_count_throughput_memory (run : Nat → ProcOutcome)
    (initial_memory final_memory : Int)
    (hok : ∀ i, i < 100 → calcOk (run i) = true) :
    (∀ cmd ∈ latency_trace run, cmd = "1+1")
    ∧ (latency_trace run).length = 100
    ∧ (test_throughput_flood initial_memory final_memory = "PASS"
        ↔ final_memory - initial_memory < 100 * 1024 * 1024) := by
  refine ⟨latency_trace_from_cmds run 0 100, ?_, ?_⟩
  · exact latency_trace_from_length run 100 0 (fun j hj => by
      have := hok j hj
      simpa using this)
  · rw [test_throughput_flood]
    by_cases hm : final_memory - initial_memory < 100 * 1024 * 1024
    · simp [hm]
    · rw [if_neg hm]
      constructor
      · intro h
        exact absurd h (by decide)
      · intro h
        exact absurd h hm

/-- C8 witness: an engine that answers `2` with exit code 0 every time,
and a memory growth below the bound. -/
theorem C8_latency_count_throughput_memory_witness :
    (latency_trace (fun _ => ProcOutcome.ret 0 "2" "")).length = 100
    ∧ (test_throughput_flood 1000 2000 = "PASS"
        ↔ (2000 : Int) - 1000 < 100 * 1024 * 1024) := by
  have h := C8_latency_count_throughput_memory
    (fun _ => ProcOutcome.ret 0 "2" "") 1000 2000 (fun _ _ => rfl)
  exact ⟨h.2.1, h.2.2⟩

/-- C9: a command matching one of the four simple-arithmetic patterns is
evaluated with the local Python evaluator first; when that evaluation
succeeds, its result (tagged `fast_eval`) is returned and the external
C++ engine is not invoked (the invocation flag is `false`). -/
theorem C9_simple_arithmetic_skips_engine (engine_available : Bool)
    (engine fallback_eval : String → CmdResult) (command : String)
    (hsimple : is_simple_arithmetic command = true)
    (hsucc : (fallback_eval command).success = true) :
    execute_math_command engine_available engine fallback_eval command
      = ({ fallback_eval command with fast_eval := true }, false) := by
  obtain ⟨hne1, hne2, hne3, hne4, hne5⟩ := simple_not_special command hsimple
  rw [execute_math_command]
  rw [if_neg hne1]
  rw [if_neg (by rw [hne2]; exact Bool.false_ne_true)]
  rw [if_neg (by simp [hne3, hne4, hne5])]
  rw [hsimple]
  simp only [if_true, hsucc, if_pos]

/-- C9 witness: the simple command `2+2` with a succeeding local
evaluator bypasses the engine. -/
theorem C9_simple_arithmetic_skips_engine_witness :
    execute_math_command true
      (fun _ => ({ success := true, result := some "engine" } : CmdResult))
      (fun _ => ({ success := true, result := some "4" } : CmdResult)) "2+2"
      = ({ ((fun _ => ({ success := true, result := some "4" } : CmdResult))
            "2+2") with fast_eval := true }, false) :=
  C9_simple_arithmetic_skips_engine true
    (fun _ => { success := true, result := some "engine" })
    (fun _ => { success := true, result := some "4" }) "2+2"
    (by decide) rfl

/-- Helper: a name that is not a key of the globals association list is
never found by the lookup. -/
theorem find_none_of_not_key (env : List (String × PyVal)) (s : String)
    (hout : s ∉ env.map Prod.fst) :
    env.find? (fun p => p.1 == s) = none := by
  apply List.find?_eq_none.mpr
  intro p hp
  simp only [beq_eq_false_iff_ne, ne_eq, Bool.not_eq_true]
  intro heq
  exact hout (List.mem_map.mpr ⟨p, hp, heq⟩)

/-- Helper: an expression referencing a name that is not a key of the
evaluation environment always evaluates to an error. -/
theorem py_eval_error_of_freeName (env : List (String × PyVal)) (e : PyExpr)
    (s : String) (hmem : s ∈ freeNames e) (hout : s ∉ env.map Prod.fst) :
    ∃ msg, py_eval env e = Except.error msg := by
  induction e with
  | lit n => simp [freeNames] at hmem
  | name t =>
    simp [freeNames] at hmem
    subst hmem
    rw [py_eval, find_none_of_not_key env s hout]
    exact ⟨_, rfl⟩
  | binop op a b iha ihb =>
    rw [freeNames] at hmem
    rcases List.mem_append.mp hmem with h | h
    · obtain ⟨m, hm⟩ := iha h
      rw [py_eval, hm]
      exact ⟨m, rfl⟩
    · cases ha : py_eval env a with
      | error m2 => rw [py_eval, ha]; exact ⟨m2, rfl⟩
      | ok va =>
        obtain ⟨m, hm⟩ := ihb h
        rw [py_eval, ha, hm]
        exact ⟨m, rfl⟩
  | call f arg ih =>
    rw [freeNames] at hmem
    rcases List.mem_cons.mp hmem with h | h
    · subst h
      rw [py_eval, find_none_of_not_key env s hout]
      exact ⟨_, rfl⟩
    · cases hf : env.find? (fun p => p.1 == f) with
      | none =>
        rw [py_eval, hf]
        exact ⟨_, rfl⟩
      | some p =>
        obtain ⟨m, hm⟩ := ih h
        rw [py_eval, hf, hm]
        exact ⟨m, rfl⟩

/-- C10: the local fallback evaluator is total and sandboxed — an
expression referencing a name that is not a key of the `safe_dict`
environment yields a failure dictionary; every failure dictionary
carries an error message (and a dictionary is always returned: the
function is total); a name evaluates successfully iff it is a key of
`safe_dict` (the empty `'__builtins__'` mapping, the fixed mathematical
whitelist, and the NumPy names when available); and the `'__builtins__'`
key itself resolves to the empty dictionary, so evaluating that bare
name succeeds with result `{}` while offering no builtin functions. -/
theorem C10_fallback_total_sandboxed (numpy_available : Bool)
    (command : PyExpr) (s : String)
    (hmem : s ∈ freeNames command)
    (hout : s ∉ safe_dict_names numpy_available) :
    ((python_math_fallback numpy_available command).success = false
      ∧ (python_math_fallback numpy_available command).error.isSome = true)
    ∧ (∀ e : PyExpr,
        (python_math_fallback numpy_available e).success = false →
        (python_math_fallback numpy_available e).error.isSome = true)
    ∧ (∀ t : String,
        (∃ v, py_eval (safe_dict numpy_available) (PyExpr.name t)
          = Except.ok v)
        ↔ t ∈ safe_dict_names numpy_available)
    ∧ py_eval (safe_dict numpy_available) (PyExpr.name "__builtins__")
        = Except.ok PyVal.emptyDict
    ∧ python_math_fallback numpy_available (PyExpr.name "__builtins__")
        = { success := true, result := some "\x7b\x7d", fallback := true } := by
  refine ⟨?_, ?_, ?_, ?_, ?_⟩
  · obtain ⟨m, hm⟩ := py_eval_error_of_freeName _ command s hmem hout
    rw [python_math_fallback, hm]
    exact ⟨rfl, rfl⟩
  · intro e hfail
    cases he : py_eval (safe_dict numpy_available) e with
    | ok v =>
      rw [python_math_fallback, he] at hfail
      cases hfail
    | error m =>
      rw [python_math_fallback, he]
      rfl
  · intro t
    constructor
    · rintro ⟨v, hv⟩
      rw [py_eval] at hv
      cases hf : (safe_dict numpy_available).find? (fun p => p.1 == t) with
      | none =>
        rw [hf] at hv
        cases hv
      | some p =>
        have hpt := List.find?_some hf
        simp only [beq_iff_eq] at hpt
        have hp : p ∈ safe_dict numpy_available := List.mem_of_find?_eq_some hf
        exact List.mem_map.mpr ⟨p, hp, hpt⟩
    · intro ht
      cases hf : (safe_dict numpy_available).find? (fun p => p.1 == t) with
      | none =>
        exfalso
        exact absurd ht (by
          intro hmem2
          obtain ⟨p, hp, hpt⟩ := List.mem_map.mp hmem2
          have := List.find?_eq_none.mp hf p hp
          rw [hpt] at this
          simp at this)
      | some p =>
        refine ⟨p.2, ?_⟩
        rw [py_eval, hf]
  · cases numpy_available <;> rfl
  · cases numpy_available <;> rfl

/-- C10 witness: the builtin `open` is not a key of `safe_dict`, so
evaluating it fails with an error message. -/
theorem C10_fallback_total_sandboxed_witness :
    ("open" ∈ freeNames (PyExpr.name "open")
      ∧ "open" ∉ safe_dict_names false)
    ∧ ((python_math_fallback false (PyExpr.name "open")).success = false
       ∧ (python_math_fallback false (PyExpr.name "open")).error.isSome
           = true) :=
  ⟨⟨by decide, by decide⟩,
   (C10_fallback_total_sandboxed false (PyExpr.name "open") "open"
      (by decide) (by decide)).1⟩

end CppDynamicCalc
